import Mathlib

/-!
Verification of the hybrid playback core of the altster repository.

The embedding follows `src/lib/spotify/player.ts` (the richer, recent
implementation of the preview/hybrid logic), the zustand player store
(`setVolume`, `reset`, documented in README.md), and the `useSpotifyPlayer`
hook (`changeVolume`, `stop`).

Modelling conventions:
* The module-level mutable singletons of `player.ts` (`audioElement`,
  `audioUnlocked`, `keepAliveActive`, `spotifyPlayer`, `deviceId`) become an
  explicit `PlayerState` record threaded through every operation.
* Asynchronous external outcomes (network responses, the browser's decision
  whether `element.play()` resolves, which start-detection event fires first)
  are supplied by environment records; the Lean functions reproduce the
  control flow of the TypeScript on those outcomes.
* JavaScript numbers are modelled as `ℚ`.
-/

namespace Altster

/-! ## Data model (`src/lib/spotify/types.ts`) -/

structure ArtistRef where
  id : String
  name : String
  deriving Repr, DecidableEq

structure AlbumImage where
  url : String
  height : Nat
  width : Nat
  deriving Repr, DecidableEq

structure AlbumRef where
  id : String
  name : String
  images : List AlbumImage
  deriving Repr, DecidableEq

/-- `SpotifyTrack` from `types.ts`; `external_urls.spotify` is flattened. -/
structure SpotifyTrack where
  id : String
  name : String
  artists : List ArtistRef
  album : AlbumRef
  duration_ms : Nat
  preview_url : Option String
  uri : String
  external_urls_spotify : String
  deriving Repr, DecidableEq

/-- `type PlaybackType = 'preview' | 'full' | null`. -/
inductive PlaybackType where
  | preview
  | full
  | null
  deriving Repr, DecidableEq

/-! ## The shared audio element

An `HTMLAudioElement` restricted to the fields the player module reads or
writes.  `timeupdateListeners` records the handlers registered by
`onPreviewProgress` (by numeric id). -/

structure AudioElement where
  src : String := ""
  currentTime : ℚ := 0
  duration : ℚ := 0
  volume : ℚ := 1
  paused : Bool := true
  loop : Bool := false
  muted : Bool := false
  timeupdateListeners : List Nat := []
  deriving Repr, DecidableEq

/-- The module-level mutable state of `player.ts`:
`audioElement`, `audioUnlocked`, `keepAliveActive`, `spotifyPlayer`
(modelled only by whether it exists) and `deviceId`.
`nextListenerId` is bookkeeping for fresh listener ids. -/
structure PlayerState where
  audioElement : Option AudioElement := none
  audioUnlocked : Bool := false
  keepAliveActive : Bool := false
  spotifyPlayerExists : Bool := false
  deviceId : Option String := none
  nextListenerId : Nat := 0
  deriving Repr, DecidableEq

/-- The state at page load: every singleton unset, both flags false. -/
def initialPlayerState : PlayerState := {}

def SILENT_AUDIO_SRC : String :=
  "data:audio/wav;base64,UklGRigAAABXQVZFZm10IBIAAAABAAEARKwAAIhYAQACABAAAABkYXRhAgAAAAEA"

/-- `ensureAudioElement`: lazily create the shared element on first use. -/
def ensureAudioElement (st : PlayerState) : PlayerState :=
  match st.audioElement with
  | some _ => st
  | none => { st with audioElement := some {} }

/-- Apply a mutation to the shared element if it exists (the TypeScript
guards every such access with `if (audioElement)`). -/
def modifyAudio (st : PlayerState) (f : AudioElement → AudioElement) : PlayerState :=
  { st with audioElement := st.audioElement.map f }

/-! ## JavaScript error values and `isAutoplayBlockedError` -/

/-- The error values that can reach the `catch` in `playPreview`:
the module's own `AutoplayBlockedError` (message `Autoplay was blocked`),
a `DOMException` (classified by its `name`), or a generic `Error`. -/
inductive JsError where
  | autoplayBlockedError
  | domException (name : String)
  | jsError (msg : String)
  deriving Repr, DecidableEq

def jsErrorMessage : JsError → String
  | .autoplayBlockedError => "Autoplay was blocked"
  | .domException _ => ""
  | .jsError m => m

/-- Bool-valued substring test on character lists: does `needle` occur as a
prefix of `hay`? -/
def isSubListAt : List Char → List Char → Bool
  | [], _ => true
  | _ :: _, [] => false
  | a :: as, b :: bs => a == b && isSubListAt as bs

/-- Does `needle` occur anywhere inside `hay`? -/
def containsSubList (needle : List Char) : List Char → Bool
  | [] => needle.isEmpty
  | b :: bs => isSubListAt needle (b :: bs) || containsSubList needle bs

/-- `hay.includes(needle)` on strings. -/
def containsSub (hay needle : String) : Bool :=
  containsSubList needle.toList hay.toList

/-- `message.toLowerCase()`, as a character list. -/
def toLowerChars (s : String) : List Char :=
  s.toList.map Char.toLower

/-- `isAutoplayBlockedError` from `player.ts`: a `DOMException` named
`NotAllowedError`, or an `Error` whose lower-cased message contains
`notallowed`, `not allowed` or `autoplay`. -/
def isAutoplayBlockedError : JsError → Bool
  | .domException n => n == "NotAllowedError"
  | e =>
      let m := toLowerChars (jsErrorMessage e)
      containsSubList "notallowed".toList m || containsSubList "not allowed".toList m
        || containsSubList "autoplay".toList m

/-! ## Preview playback engine -/

/-- Which start-detection signal settles `waitForPlaybackStart` first:
a `playing` event, a `timeupdate` event, a `pause` event observed while the
element is paused, or the 300 ms timer (carrying whether the element was
still paused when it fired). -/
inductive StartSignal where
  | playingEvt
  | timeupdateEvt
  | pauseEvt
  | timeout (pausedAtTimeout : Bool)
  deriving Repr, DecidableEq

/-- `waitForPlaybackStart`: resolves `true` on `playing`/`timeupdate`,
`false` on a `pause` event with the element paused, and `!element.paused`
when the 300 ms timer fires first. -/
def waitForPlaybackStart : StartSignal → Bool
  | .playingEvt => true
  | .timeupdateEvt => true
  | .pauseEvt => false
  | .timeout pausedAtTimeout => !pausedAtTimeout

/-- The browser's response to `element.play()` inside `playPreview`:
`none` means the promise resolved; `some e` means it rejected with `e`. -/
structure PreviewEnv where
  playResult : Option JsError
  startSignal : StartSignal
  deriving Repr, DecidableEq

/-- What `playPreview` can throw, as observed by `playTrack`:
an `AutoplayBlockedError`, or `Error('Failed to play audio preview')`. -/
inductive PreviewError where
  | autoplayBlocked
  | failed (msg : String)
  deriving Repr, DecidableEq

/-- The `catch` clause of `playPreview`: rethrow `AutoplayBlockedError` when
`isAutoplayBlockedError` matches, else a generic failure. -/
def classifyCaught (e : JsError) : PreviewError :=
  if isAutoplayBlockedError e then .autoplayBlocked else .failed "Failed to play audio preview"

/-- Primitive operations on the shared audio element, in program order.
Used to observe whether `playPreview` performs the stop/reset step. -/
inductive AudioOp where
  | pauseOp
  | setCurrentTime (t : ℚ)
  | setSrc (s : String)
  | setLoop (b : Bool)
  | setMuted (b : Bool)
  | setVolumeOp (v : ℚ)
  | loadOp
  | playOp
  deriving Repr, DecidableEq

/-- `stopPreview` together with the element operations it issues
(`pause()` then `currentTime = 0`, only when the element exists). -/
def stopPreviewT (st : PlayerState) : PlayerState × List AudioOp :=
  match st.audioElement with
  | some a =>
      ({ st with audioElement := some { a with paused := true, currentTime := 0 } },
       [.pauseOp, .setCurrentTime 0])
  | none => (st, [])

/-- `stopPreview` from `player.ts`. -/
def stopPreview (st : PlayerState) : PlayerState :=
  (stopPreviewT st).1

/-- Result of a `playPreview` call: the module state it leaves behind, the
error it throws (if any), and the element operations it issued. -/
structure PreviewOutcome where
  state : PlayerState
  error : Option PreviewError
  ops : List AudioOp
  deriving Repr, DecidableEq

/-- `playPreview(previewUrl, volume)` from `player.ts`.
Skips `stopPreview` when keep-alive is active; assigns the source, resets
position, scales volume, loads, plays, and waits up to 300 ms for playback
to actually start.  A negative wait is thrown as `AutoplayBlockedError`
(whose message the catch clause re-classifies as autoplay-blocked); on a
confirmed start the keep-alive flag is cleared. -/
def playPreview (st : PlayerState) (env : PreviewEnv) (previewUrl : String)
    (volume : ℚ) : PreviewOutcome :=
  let stopped := if st.keepAliveActive then (st, ([] : List AudioOp)) else stopPreviewT st
  let st1 := ensureAudioElement stopped.1
  let st2 := modifyAudio st1 (fun a =>
    { a with loop := false, muted := false, src := previewUrl,
             currentTime := 0, volume := volume / 100 })
  let setupOps : List AudioOp :=
    [.setLoop false, .setMuted false, .setSrc previewUrl, .setCurrentTime 0,
     .setVolumeOp (volume / 100), .loadOp, .playOp]
  let allOps := stopped.2 ++ setupOps
  match env.playResult with
  | some e => ⟨st2, some (classifyCaught e), allOps⟩
  | none =>
      if waitForPlaybackStart env.startSignal then
        ⟨{ modifyAudio st2 (fun a => { a with paused := false }) with keepAliveActive := false },
         none, allOps⟩
      else
        ⟨modifyAudio st2 (fun a => { a with paused := true }),
         some (classifyCaught .autoplayBlockedError), allOps⟩

/-- `preparePreview`: stop, swap source, reset position, set volume, load —
without playing. -/
def preparePreview (st : PlayerState) (url : String) (volume : ℚ) : PlayerState :=
  let st1 := ensureAudioElement (stopPreview st)
  modifyAudio st1 (fun a => { a with src := url, currentTime := 0, volume := volume / 100 })

/-- `pausePreview`. -/
def pausePreview (st : PlayerState) : PlayerState :=
  modifyAudio st (fun a => { a with paused := true })

/-- `resumePreview`; `playOk` is whether `element.play()` resolved
(failures are caught and logged, leaving the state unchanged). -/
def resumePreview (st : PlayerState) (playOk : Bool) : PlayerState :=
  modifyAudio st (fun a => if playOk then { a with paused := false } else a)

/-- `setPreviewVolume`: linear scaling of 0–100 to the element's 0.0–1.0,
with no clamping of its own. -/
def setPreviewVolume (st : PlayerState) (volume : ℚ) : PlayerState :=
  modifyAudio st (fun a => { a with volume := volume / 100 })

/-- `getPreviewProgress`: `{current, duration}` in milliseconds, or the
neutral `{0, 0}` before the element exists. -/
def getPreviewProgress (st : PlayerState) : ℚ × ℚ :=
  match st.audioElement with
  | some a => (a.currentTime * 1000, a.duration * 1000)
  | none => (0, 0)

/-- `isPreviewPlaying`: the element exists and is not paused. -/
def isPreviewPlaying (st : PlayerState) : Bool :=
  match st.audioElement with
  | some a => !a.paused
  | none => false

/-- `onPreviewProgress`: registers a `timeupdate` handler and returns an
unsubscriber; when no element exists yet it returns the state unchanged and
a no-op unsubscriber. -/
def onPreviewProgress (st : PlayerState) : PlayerState × (PlayerState → PlayerState) :=
  match st.audioElement with
  | none => (st, fun s => s)
  | some a =>
      let id := st.nextListenerId
      ({ st with
          audioElement := some { a with timeupdateListeners := a.timeupdateListeners ++ [id] },
          nextListenerId := id + 1 },
       fun s =>
        match s.audioElement with
        | none => s
        | some b =>
            { s with audioElement := some { b with timeupdateListeners := b.timeupdateListeners.erase id } })

/-! ## Gesture & unlock manager -/

/-- `unlockAudio`; `playOk` is whether the silent `play()` resolved.
Idempotent via the `audioUnlocked` early return; failures are swallowed. -/
def unlockAudio (st : PlayerState) (playOk : Bool) : PlayerState :=
  if st.audioUnlocked then st
  else
    let st1 := ensureAudioElement st
    let st2 := modifyAudio st1 (fun a => { a with src := SILENT_AUDIO_SRC, volume := 0 })
    if playOk then
      { modifyAudio st2 (fun a => { a with paused := true, currentTime := 0 }) with
          audioUnlocked := true }
    else st2

/-- `startAutoplayKeepAlive`; `playOk` is whether the muted looping
`play()` resolved.  On success both `keepAliveActive` and `audioUnlocked`
become true; failures are swallowed. -/
def startAutoplayKeepAlive (st : PlayerState) (playOk : Bool) : PlayerState :=
  if st.keepAliveActive then st
  else
    let st1 := ensureAudioElement st
    let st2 := modifyAudio st1 (fun a =>
      { a with src := SILENT_AUDIO_SRC, loop := true, muted := true, volume := 0 })
    if playOk then
      { modifyAudio st2 (fun a => { a with paused := false }) with
          keepAliveActive := true, audioUnlocked := true }
    else st2

/-- `stopAutoplayKeepAlive`: halt the loop, unmute, reset position. -/
def stopAutoplayKeepAlive (st : PlayerState) : PlayerState :=
  if !st.keepAliveActive then st
  else
    { modifyAudio st (fun a =>
        { a with loop := false, muted := false, paused := true, currentTime := 0 }) with
        keepAliveActive := false }

/-! ## Streaming-SDK session -/

/-- The synchronous script-loading portion of `initializeSpotifyPlayer`
(lines 61–72): document state as seen by it.  `windowSpotifyLoaded` is
whether `window.Spotify` is set (the SDK script has loaded and run);
`scriptsAppended` counts the SDK `<script>` elements appended to the
document body so far. -/
structure SdkLoadState where
  windowSpotifyLoaded : Bool
  scriptsAppended : Nat
  deriving Repr, DecidableEq

/-- One call of `initializeSpotifyPlayer`, restricted to its script-loading
effect: when `window.Spotify` is already set it goes straight to
`createPlayer`; otherwise it creates a script element and appends it to the
document body.  There is no check for an already-appended script tag. -/
def initializeSpotifyPlayerScriptStep (st : SdkLoadState) : SdkLoadState :=
  if st.windowSpotifyLoaded then st
  else { st with scriptsAppended := st.scriptsAppended + 1 }

/-- Outcome of `initializeSpotifyPlayer` as the orchestrator sees it:
either the `ready` event supplied a device id, or an error/timeout
rejected the promise with a message. -/
def applySdkInit (st : PlayerState) (result : Except String String) : PlayerState :=
  match result with
  | .ok d => { st with spotifyPlayerExists := true, deviceId := some d }
  | .error _ => st

/-! ## Playback orchestrator (`playTrack`, `loadTrack`) -/

/-- Externally visible effects of one `playTrack` run, in program order. -/
inductive Effect where
  | fetchTrackMeta (trackId : String)
  | sdkInitialize
  | sdkPlay (uri : String)
  | previewPlay (url : String)
  | connectDispatch (uri : String)
  deriving Repr, DecidableEq

/-- `{ type, track, autoplayBlocked? }` returned by `playTrack`;
`autoplayBlocked = none` models the field being absent. -/
structure PlayTrackResult where
  type : PlaybackType
  track : SpotifyTrack
  autoplayBlocked : Option Bool := none
  deriving Repr, DecidableEq

/-- The environment of one `playTrack` run: platform detection and the
outcome of each external interaction the run may perform. -/
structure PlayTrackEnv where
  isIOS : Bool
  trackResult : Except String SpotifyTrack
  sdkInit : Except String String
  sdkPlay : Except String Unit
  preview : PreviewEnv
  connect : Except String Unit
  deriving Repr

structure PlayTrackOutcome where
  result : Except String PlayTrackResult
  state : PlayerState
  effects : List Effect
  deriving Repr

/-- Strategy 3, `playWithConnectAPI`, plus the terminal failure of
`playTrack`: a PUT to the Connect endpoint; non-success falls through to
the single user-facing error. -/
def connectFinish (connect : Except String Unit) (track : SpotifyTrack)
    (trackUri : String) (st : PlayerState) (fx : List Effect) : PlayTrackOutcome :=
  match connect with
  | .ok _ => ⟨.ok { type := .full, track := track }, st, fx ++ [.connectDispatch trackUri]⟩
  | .error _ =>
      ⟨.error "Could not play track. Please open Spotify on a device and try again.",
       st, fx ++ [.connectDispatch trackUri]⟩

/-- Strategy 1 of `playTrack`: skipped entirely on iOS; otherwise
initialize the SDK when no device id is cached (its failure is caught
before `playWithSDK` is reached), then `playWithSDK`.  Returns the updated
state, the effects issued, and whether the strategy returned `full`. -/
def sdkStrategyStep (st : PlayerState) (env : PlayTrackEnv) (trackUri : String) :
    PlayerState × List Effect × Bool :=
  if env.isIOS then (st, [], false)
  else
    match st.deviceId with
    | some _ =>
        (st, [.sdkPlay trackUri], match env.sdkPlay with | .ok _ => true | .error _ => false)
    | none =>
        match env.sdkInit with
        | .ok d =>
            ({ st with spotifyPlayerExists := true, deviceId := some d },
             [.sdkInitialize, .sdkPlay trackUri],
             match env.sdkPlay with | .ok _ => true | .error _ => false)
        | .error _ => (st, [.sdkInitialize], false)

/-- `playTrack(trackId, accessToken, volume)`: the hybrid strategy.
Requires a credential; fetches metadata (failure aborts with a generic
message); tries the SDK (non-iOS), the preview clip, then the Connect API;
autoplay-blocked previews resolve successfully with `autoplayBlocked:
true`; exhaustion throws the terminal error. -/
def playTrack (st : PlayerState) (env : PlayTrackEnv) (trackId : String)
    (accessToken : Option String) (volume : ℚ) : PlayTrackOutcome :=
  match accessToken with
  | none => ⟨.error "Please log in with Spotify to play tracks.", st, []⟩
  | some _ =>
      match env.trackResult with
      | .error _ => ⟨.error "Failed to fetch track details", st, [.fetchTrackMeta trackId]⟩
      | .ok track =>
          let trackUri := "spotify:track:" ++ trackId
          let sdk := sdkStrategyStep st env trackUri
          let fx0 := .fetchTrackMeta trackId :: sdk.2.1
          if sdk.2.2 then ⟨.ok { type := .full, track := track }, sdk.1, fx0⟩
          else
            match track.preview_url with
            | some url =>
                let pr := playPreview sdk.1 env.preview url volume
                let fx1 := fx0 ++ [.previewPlay url]
                match pr.error with
                | none => ⟨.ok { type := .preview, track := track }, pr.state, fx1⟩
                | some .autoplayBlocked =>
                    ⟨.ok { type := .preview, track := track, autoplayBlocked := some true },
                     pr.state, fx1⟩
                | some (.failed _) => connectFinish env.connect track trackUri pr.state fx1
            | none => connectFinish env.connect track trackUri sdk.1 fx0

/-- `loadTrack(trackId, accessToken, volume)`: prepare without playing.
`getTrack` errors propagate unchanged here (no try/catch). -/
def loadTrack (st : PlayerState) (trackResult : Except String SpotifyTrack)
    (accessToken : Option String) (volume : ℚ) :
    Except String (PlaybackType × SpotifyTrack) × PlayerState :=
  match accessToken with
  | none => (.error "Please log in with Spotify to play tracks.", st)
  | some _ =>
      match trackResult with
      | .error e => (.error e, st)
      | .ok track =>
          match track.preview_url with
          | some url => (.ok (.preview, track), preparePreview st url volume)
          | none =>
              (.error "This track has no preview available. Please log in for full playback.", st)

/-- Module-level `pause()`: SDK pause when a player exists (opaque to our
state), else `pausePreview`. -/
def pauseAll (st : PlayerState) : PlayerState :=
  if st.spotifyPlayerExists then st else pausePreview st

/-- Module-level `resume()`. -/
def resumeAll (st : PlayerState) (playOk : Bool) : PlayerState :=
  if st.spotifyPlayerExists then st else resumePreview st playOk

/-- `stopPlayback`: stop the preview and pause the SDK player (the latter
is opaque to our state). -/
def stopPlayback (st : PlayerState) : PlayerState :=
  stopPreview st

/-- `disconnectPlayer`: tear down the SDK player, clear the device id,
stop the preview. -/
def disconnectPlayer (st : PlayerState) : PlayerState :=
  let st1 :=
    if st.spotifyPlayerExists then
      { st with spotifyPlayerExists := false, deviceId := none }
    else st
  stopPreview st1

/-! ## Player store (zustand, README.md lines 336–411) -/

structure PlayerStoreState where
  currentTrack : Option SpotifyTrack
  isPlaying : Bool
  playbackType : PlaybackType
  progress : ℚ
  volume : ℚ
  error : Option String
  isLoading : Bool
  deriving Repr, DecidableEq

/-- Initial store state (`volume: 80`). -/
def initialPlayerStoreState : PlayerStoreState :=
  ⟨none, false, .null, 0, 80, none, false⟩

/-- `setVolume`: clamp to [0, 100] with `Math.max(0, Math.min(100, v))`
and store the clamped value. -/
def setVolume (st : PlayerStoreState) (volume : ℚ) : PlayerStoreState :=
  let clampedVolume := max 0 (min 100 volume)
  { st with volume := clampedVolume }

/-- `reset`: restore every field except `volume` to its initial value. -/
def reset (st : PlayerStoreState) : PlayerStoreState :=
  { st with currentTrack := none, isPlaying := false, playbackType := .null,
            progress := 0, error := none, isLoading := false }

/-! ## `useSpotifyPlayer` hook -/

/-- The hook's `changeVolume`: `setVolume(newVolume)` on the store, then
`player.setPreviewVolume(newVolume)` — the engine receives the raw input. -/
def changeVolume (store : PlayerStoreState) (pl : PlayerState) (newVolume : ℚ) :
    PlayerStoreState × PlayerState :=
  (setVolume store newVolume, setPreviewVolume pl newVolume)

/-- The hook's `stop`: `player.stopPlayback()` then store `reset()`. -/
def stopHook (pl : PlayerState) (store : PlayerStoreState) :
    PlayerState × PlayerStoreState :=
  (stopPlayback pl, reset store)

/-! ## The player module's operations as a transition system

Used to state page-lifetime invariants (monotonicity of `audioUnlocked`,
keep-alive implying unlocked). -/

/-- One call of any state-mutating operation of the player module, with the
environment outcomes it depends on. -/
inductive Op where
  | opPlayPreview (env : PreviewEnv) (url : String) (volume : ℚ)
  | opPreparePreview (url : String) (volume : ℚ)
  | opUnlockAudio (playOk : Bool)
  | opStartKeepAlive (playOk : Bool)
  | opStopKeepAlive
  | opStopPreview
  | opPausePreview
  | opResumePreview (playOk : Bool)
  | opSetPreviewVolume (volume : ℚ)
  | opOnPreviewProgress
  | opSdkInit (result : Except String String)
  | opPlayTrack (env : PlayTrackEnv) (trackId : String) (accessToken : Option String) (volume : ℚ)
  | opLoadTrack (trackResult : Except String SpotifyTrack) (accessToken : Option String) (volume : ℚ)
  | opPause
  | opResume (playOk : Bool)
  | opStopPlayback
  | opDisconnectPlayer
  deriving Repr

/-- Effect of each operation on the module state. -/
def applyOp (op : Op) (st : PlayerState) : PlayerState :=
  match op with
  | .opPlayPreview env url v => (playPreview st env url v).state
  | .opPreparePreview url v => preparePreview st url v
  | .opUnlockAudio playOk => unlockAudio st playOk
  | .opStartKeepAlive playOk => startAutoplayKeepAlive st playOk
  | .opStopKeepAlive => stopAutoplayKeepAlive st
  | .opStopPreview => stopPreview st
  | .opPausePreview => pausePreview st
  | .opResumePreview playOk => resumePreview st playOk
  | .opSetPreviewVolume v => setPreviewVolume st v
  | .opOnPreviewProgress => (onPreviewProgress st).1
  | .opSdkInit result => applySdkInit st result
  | .opPlayTrack env trackId tok v => (playTrack st env trackId tok v).state
  | .opLoadTrack tr tok v => (loadTrack st tr tok v).2
  | .opPause => pauseAll st
  | .opResume playOk => resumeAll st playOk
  | .opStopPlayback => stopPlayback st
  | .opDisconnectPlayer => disconnectPlayer st

/-- States reachable from page load by any sequence of module operations. -/
inductive Reachable : PlayerState → Prop where
  | init : Reachable initialPlayerState
  | step (op : Op) {s : PlayerState} : Reachable s → Reachable (applyOp op s)

/-! ## Derived predicates and sample data -/

def exceptOk {α β : Type} : Except α β → Bool
  | .ok _ => true
  | .error _ => false

/-- Whether strategy 1 of `playTrack` returns `full` for a given state and
environment: not iOS, and the SDK play call succeeds (after a successful
initialization when no device id is cached yet). -/
def sdkStrategySucceeds (st : PlayerState) (env : PlayTrackEnv) : Bool :=
  !env.isIOS &&
    (match st.deviceId with
     | some _ => exceptOk env.sdkPlay
     | none => exceptOk env.sdkInit && exceptOk env.sdkPlay)

def sampleAlbum : AlbumRef :=
  ⟨"2up3OPMp9Tb4dAKM2erWXQ", "Sample Album", [⟨"https://i.scdn.co/image/a", 300, 300⟩]⟩

def sampleTrack : SpotifyTrack :=
  ⟨"4uLU6hMCjMI75M1A2tKUQC", "Sample Track", [⟨"0LyfQWJT6nXafLPZqxe9Of", "Sample Artist"⟩],
   sampleAlbum, 30000, some "https://p.scdn.co/mp3-preview/a",
   "spotify:track:4uLU6hMCjMI75M1A2tKUQC",
   "https://open.spotify.com/track/4uLU6hMCjMI75M1A2tKUQC"⟩

def sampleTrackNoPreview : SpotifyTrack :=
  { sampleTrack with preview_url := none }

/-- A state in which the keep-alive loop is running. -/
def keepAliveState : PlayerState :=
  { initialPlayerState with
      audioElement := some { src := SILENT_AUDIO_SRC, loop := true, muted := true,
                             volume := 0, paused := false },
      audioUnlocked := true, keepAliveActive := true }

/-- A state in which the shared audio element exists. -/
def elementReadyState : PlayerState :=
  { initialPlayerState with audioElement := some {} }

/-- Environment: iOS, metadata succeeds with a preview track, `play()`
resolves but the 300 ms window elapses with the element still paused,
Connect dispatch fails. -/
def envPreviewTimeout : PlayTrackEnv :=
  ⟨true, .ok sampleTrack, .error "Spotify Player SDK failed to load",
   .error "Failed to play track with SDK", ⟨none, .timeout true⟩,
   .error "No active Spotify device found"⟩

/-- Environment: iOS, metadata succeeds with a preview-less track, Connect
dispatch fails. -/
def envNoPreviewIOS : PlayTrackEnv :=
  ⟨true, .ok sampleTrackNoPreview, .error "Spotify Player SDK failed to load",
   .error "Failed to play track with SDK", ⟨none, .playingEvt⟩,
   .error "No active Spotify device found"⟩

/-! ## Helper lemmas -/

theorem classifyCaught_autoplayBlockedError :
    classifyCaught .autoplayBlockedError = .autoplayBlocked := by decide

theorem sdkStrategyStep_flag (st : PlayerState) (env : PlayTrackEnv) (uri : String) :
    (sdkStrategyStep st env uri).2.2 = sdkStrategySucceeds st env := by
  rcases env with ⟨ios, tr, init, sp, pv, cn⟩
  cases hd : st.deviceId <;> cases ios <;> cases init <;> cases sp <;>
    simp [sdkStrategyStep, sdkStrategySucceeds, exceptOk, hd]

theorem sdkStrategyStep_state_flags (st : PlayerState) (env : PlayTrackEnv) (uri : String) :
    (sdkStrategyStep st env uri).1.audioUnlocked = st.audioUnlocked
      ∧ (sdkStrategyStep st env uri).1.keepAliveActive = st.keepAliveActive
      ∧ (sdkStrategyStep st env uri).1.audioElement = st.audioElement := by
  rcases env with ⟨ios, tr, init, sp, pv, cn⟩
  cases hd : st.deviceId <;> cases ios <;> cases init <;> cases sp <;>
    simp [sdkStrategyStep, hd]

theorem playPreview_state_flags (st : PlayerState) (env : PreviewEnv)
    (url : String) (v : ℚ) :
    (playPreview st env url v).state.audioUnlocked = st.audioUnlocked
      ∧ ((playPreview st env url v).state.keepAliveActive = true →
          st.keepAliveActive = true) := by
  rcases env with ⟨pr, sig⟩
  cases hk : st.keepAliveActive <;> cases he : st.audioElement <;> cases pr <;>
    cases hw : waitForPlaybackStart sig <;>
    simp [playPreview, stopPreviewT, ensureAudioElement, modifyAudio, hk, he, hw]

theorem connectFinish_state (connect : Except String Unit) (track : SpotifyTrack)
    (uri : String) (st : PlayerState) (fx : List Effect) :
    (connectFinish connect track uri st fx).state = st := by
  cases connect <;> simp [connectFinish]

theorem playTrack_state_flags (st : PlayerState) (env : PlayTrackEnv)
    (trackId : String) (tok : Option String) (v : ℚ) :
    (playTrack st env trackId tok v).state.audioUnlocked = st.audioUnlocked
      ∧ ((playTrack st env trackId tok v).state.keepAliveActive = true →
          st.keepAliveActive = true) := by
  cases tok with
  | none => simp [playTrack]
  | some t =>
    cases htr : env.trackResult with
    | error e => simp [playTrack, htr]
    | ok track =>
      have hsdk := sdkStrategyStep_state_flags st env ("spotify:track:" ++ trackId)
      have hpp := playPreview_state_flags (sdkStrategyStep st env ("spotify:track:" ++ trackId)).1
        env.preview
      simp only [playTrack, htr]
      cases hflag : (sdkStrategyStep st env ("spotify:track:" ++ trackId)).2.2 with
      | true => simp [hflag, hsdk.1, hsdk.2.1]
      | false =>
        cases hu : track.preview_url with
        | none =>
          simp [hflag, hu, connectFinish_state, hsdk.1, hsdk.2.1]
        | some url =>
          have h1 := (hpp url v).1
          have h2 := (hpp url v).2
          cases herr : (playPreview (sdkStrategyStep st env ("spotify:track:" ++ trackId)).1
              env.preview url v).error with
          | none =>
            simp [hflag, hu, herr, h1, hsdk.1]
            intro hka
            exact hsdk.2.1 ▸ h2 hka
          | some pe =>
            cases pe with
            | autoplayBlocked =>
              simp [hflag, hu, herr, h1, hsdk.1]
              intro hka
              exact hsdk.2.1 ▸ h2 hka
            | failed m =>
              simp [hflag, hu, herr, connectFinish_state, h1, hsdk.1]
              intro hka
              exact hsdk.2.1 ▸ h2 hka

/-! ## Claim theorems -/

/-- C3: a `playTrack` call with an absent credential rejects immediately
with the log-in message, issues no network effect at all (in particular no
request to the track-metadata endpoint), and leaves the module state
untouched — no fallback strategy is attempted. -/
theorem playTrack_no_credential_rejects_without_fetch
    (st : PlayerState) (env : PlayTrackEnv) (trackId : String) (volume : ℚ) :
    (playTrack st env trackId none volume).result
        = .error "Please log in with Spotify to play tracks."
      ∧ (playTrack st env trackId none volume).effects = []
      ∧ (playTrack st env trackId none volume).state = st :=
  ⟨rfl, rfl, rfl⟩

/-- C4: when keep-alive is active, `playPreview` performs exactly the
direct source-swap sequence — clear loop/mute, assign the new source, reset
position, set volume, load, play — and in particular never issues a
`pause()` on the shared element before (or after) invoking play: there is
no intermediate paused state introduced by `playPreview` itself. -/
theorem playPreview_keepalive_skips_stop (st : PlayerState) (env : PreviewEnv)
    (url : String) (volume : ℚ) (h : st.keepAliveActive = true) :
    (playPreview st env url volume).ops
        = [.setLoop false, .setMuted false, .setSrc url, .setCurrentTime 0,
           .setVolumeOp (volume / 100), .loadOp, .playOp]
      ∧ AudioOp.pauseOp ∉ (playPreview st env url volume).ops := by
  have hops : (playPreview st env url volume).ops
      = [.setLoop false, .setMuted false, .setSrc url, .setCurrentTime 0,
         .setVolumeOp (volume / 100), .loadOp, .playOp] := by
    rcases env with ⟨pr, sig⟩
    cases pr <;> cases hw : waitForPlaybackStart sig <;> simp [playPreview, h, hw]
  refine ⟨hops, ?_⟩
  rw [hops]
  simp

/-- C4 witness: with the keep-alive loop running, a concrete `playPreview`
call issues no `pause()` on the shared element. -/
theorem playPreview_keepalive_skips_stop_witness :
    (playPreview keepAliveState ⟨none, .playingEvt⟩ "https://p.scdn.co/mp3-preview/a" 80).ops
        = [.setLoop false, .setMuted false, .setSrc "https://p.scdn.co/mp3-preview/a",
           .setCurrentTime 0, .setVolumeOp (80 / 100), .loadOp, .playOp]
      ∧ AudioOp.pauseOp ∉
        (playPreview keepAliveState ⟨none, .playingEvt⟩ "https://p.scdn.co/mp3-preview/a" 80).ops :=
  playPreview_keepalive_skips_stop keepAliveState ⟨none, .playingEvt⟩
    "https://p.scdn.co/mp3-preview/a" 80 rfl

/-- C6 counterexample: two `initializeSpotifyPlayer` calls made while the
SDK has not yet signalled ready (`window.Spotify` unset throughout, e.g.
both calls during the script's load) append the SDK script element twice —
the claimed at-most-once bound fails exactly in the "script tag already
exists but the SDK has not yet signalled ready" situation. -/
theorem initializeSpotifyPlayer_script_appended_twice :
    (initializeSpotifyPlayerScriptStep
        (initializeSpotifyPlayerScriptStep ⟨false, 0⟩)).scriptsAppended = 2
      ∧ ¬ (initializeSpotifyPlayerScriptStep
        (initializeSpotifyPlayerScriptStep ⟨false, 0⟩)).scriptsAppended ≤ 1 :=
  ⟨rfl, by decide⟩

/-- C6 amended: the script element is appended only while `window.Spotify`
is unset — once the SDK has loaded and set its global, further `initialize`
calls append nothing; each call made before the SDK global is set appends
exactly one script element. -/
theorem initializeSpotifyPlayer_append_guard (st : SdkLoadState) :
    (st.windowSpotifyLoaded = true → initializeSpotifyPlayerScriptStep st = st)
      ∧ (st.windowSpotifyLoaded = false →
          (initializeSpotifyPlayerScriptStep st).scriptsAppended
            = st.scriptsAppended + 1) := by
  constructor <;> intro h <;> simp [initializeSpotifyPlayerScriptStep, h]

/-- C6 amended, witness: concrete instances of both branches. -/
theorem initializeSpotifyPlayer_append_guard_witness :
    initializeSpotifyPlayerScriptStep ⟨true, 3⟩ = (⟨true, 3⟩ : SdkLoadState)
      ∧ (initializeSpotifyPlayerScriptStep ⟨false, 0⟩).scriptsAppended = 0 + 1 :=
  ⟨(initializeSpotifyPlayer_append_guard ⟨true, 3⟩).1 rfl,
   (initializeSpotifyPlayer_append_guard ⟨false, 0⟩).2 rfl⟩

/-- C9: before the shared audio element has been created, every read or
subscribe operation of the preview engine returns its neutral default
without creating the element: progress is `{0, 0}`, `isPreviewPlaying` is
false, and `onPreviewProgress` leaves the state unchanged and hands back a
no-op unsubscriber. -/
theorem preview_reads_neutral_before_element (st : PlayerState)
    (h : st.audioElement = none) :
    getPreviewProgress st = (0, 0)
      ∧ isPreviewPlaying st = false
      ∧ (onPreviewProgress st).1 = st
      ∧ ∀ s, (onPreviewProgress st).2 s = s := by
  refine ⟨?_, ?_, ?_, ?_⟩ <;>
    simp [getPreviewProgress, isPreviewPlaying, onPreviewProgress, h]

/-- C9 witness: the neutral defaults at the initial (element-less) state. -/
theorem preview_reads_neutral_before_element_witness :
    getPreviewProgress initialPlayerState = (0, 0)
      ∧ isPreviewPlaying initialPlayerState = false
      ∧ (onPreviewProgress initialPlayerState).1 = initialPlayerState
      ∧ ∀ s, (onPreviewProgress initialPlayerState).2 s = s :=
  preview_reads_neutral_before_element initialPlayerState rfl

/-- C10: the store `reset` (run by the UI-facing `stop`) restores
`currentTrack`, `isPlaying`, `playbackType`, `progress`, `error` and
`isLoading` to their initial values while leaving `volume` exactly as it
was. -/
theorem reset_preserves_volume_restores_rest (pl : PlayerState)
    (st : PlayerStoreState) :
    (reset st).volume = st.volume
      ∧ (reset st).currentTrack = initialPlayerStoreState.currentTrack
      ∧ (reset st).isPlaying = initialPlayerStoreState.isPlaying
      ∧ (reset st).playbackType = initialPlayerStoreState.playbackType
      ∧ (reset st).progress = initialPlayerStoreState.progress
      ∧ (reset st).error = initialPlayerStoreState.error
      ∧ (reset st).isLoading = initialPlayerStoreState.isLoading
      ∧ (stopHook pl st).2 = reset st :=
  ⟨rfl, rfl, rfl, rfl, rfl, rfl, rfl, rfl⟩

/-- C8 counterexample: `changeVolume 150` stores the clamped 100 in the
state, but the audio engine receives the raw 150 and scales it to 1.5 —
not the clamped value's scaling `1.0`.  So the clamped value is not what
the audio engine receives. -/
theorem changeVolume_engine_gets_unclamped :
    (changeVolume initialPlayerStoreState elementReadyState 150).1.volume = 100
      ∧ (changeVolume initialPlayerStoreState elementReadyState 150).2.audioElement.map
          AudioElement.volume = some (3 / 2)
      ∧ (3 / 2 : ℚ) ≠ max 0 (min 100 (150 : ℚ)) / 100 := by
  refine ⟨?_, ?_, ?_⟩
  · show max 0 (min 100 (150 : ℚ)) = 100
    norm_num
  · simp [changeVolume, setPreviewVolume, modifyAudio, elementReadyState,
      initialPlayerState]
    norm_num
  · norm_num

/-- C8 amended: the store's `setVolume` clamps its input to [0, 100]
(below-range to 0, above-range to 100, in-range unchanged, idempotent at
the boundaries with clamp(150) = clamp(100) = 100) and the clamped value is
what the volume state receives; the audio engine, however, receives the raw
input scaled by 1/100, without clamping. -/
theorem setVolume_clamps_store_engine_raw (st : PlayerStoreState)
    (pl : PlayerState) (v : ℚ) :
    (setVolume st v).volume = max 0 (min 100 v)
      ∧ (v < 0 → (setVolume st v).volume = 0)
      ∧ (100 < v → (setVolume st v).volume = 100)
      ∧ (0 ≤ v → v ≤ 100 → (setVolume st v).volume = v)
      ∧ (setVolume st 150).volume = (setVolume st 100).volume
      ∧ (setVolume st 100).volume = 100
      ∧ (setVolume (setVolume st v) ((setVolume st v).volume)).volume
          = (setVolume st v).volume
      ∧ (changeVolume st pl v).1 = setVolume st v
      ∧ (changeVolume st pl v).2.audioElement
          = pl.audioElement.map (fun a => { a with volume := v / 100 }) := by
  refine ⟨rfl, ?_, ?_, ?_, by norm_num [setVolume], by norm_num [setVolume],
    ?_, rfl, rfl⟩
  · intro h
    show max 0 (min 100 v) = 0
    rw [min_eq_right (by linarith), max_eq_left (by linarith)]
  · intro h
    show max 0 (min 100 v) = 100
    rw [min_eq_left (by linarith)]
    norm_num
  · intro h0 h100
    show max 0 (min 100 v) = v
    rw [min_eq_right h100, max_eq_right h0]
  · show max 0 (min 100 (max 0 (min 100 v))) = max 0 (min 100 v)
    have h0 : (0 : ℚ) ≤ max 0 (min 100 v) := le_max_left _ _
    have h100 : max 0 (min 100 v) ≤ 100 :=
      max_le (by norm_num) (min_le_left _ _)
    rw [min_eq_right h100, max_eq_right h0]

/-- C8 amended, witness: the clamp evaluated below, above and inside the
range. -/
theorem setVolume_clamps_store_engine_raw_witness :
    (setVolume initialPlayerStoreState (-5)).volume = 0
      ∧ (setVolume initialPlayerStoreState 150).volume = 100
      ∧ (setVolume initialPlayerStoreState 50).volume = 50 :=
  ⟨(setVolume_clamps_store_engine_raw initialPlayerStoreState initialPlayerState
      (-5)).2.1 (by norm_num),
   (setVolume_clamps_store_engine_raw initialPlayerStoreState initialPlayerState
      150).2.2.1 (by norm_num),
   (setVolume_clamps_store_engine_raw initialPlayerStoreState initialPlayerState
      50).2.2.2.1 (by norm_num) (by norm_num)⟩

/-- C2: with a credential, a successfully fetched track that has no preview
URL, a gesture-restrictive (iOS) platform — so the SDK strategy is skipped
— and a failing Connect dispatch, `playTrack` ends in the single terminal
"open Spotify on a device" error and never returns success. -/
theorem playTrack_no_preview_ios_terminal (st : PlayerState) (env : PlayTrackEnv)
    (trackId tok e : String) (track : SpotifyTrack) (volume : ℚ)
    (hfetch : env.trackResult = .ok track)
    (hurl : track.preview_url = none)
    (hios : env.isIOS = true)
    (hconn : env.connect = .error e) :
    (playTrack st env trackId (some tok) volume).result
        = .error "Could not play track. Please open Spotify on a device and try again."
      ∧ ∀ r, (playTrack st env trackId (some tok) volume).result ≠ .ok r := by
  have hstep : sdkStrategyStep st env ("spotify:track:" ++ trackId) = (st, [], false) := by
    simp [sdkStrategyStep, hios]
  have hres : (playTrack st env trackId (some tok) volume).result
      = .error "Could not play track. Please open Spotify on a device and try again." := by
    simp [playTrack, hfetch, hstep, hurl, connectFinish, hconn]
  exact ⟨hres, fun r => by simp [hres]⟩

/-- C2 witness: concrete iOS run with a preview-less track and failing
Connect dispatch. -/
theorem playTrack_no_preview_ios_terminal_witness :
    (playTrack initialPlayerState envNoPreviewIOS "4uLU6hMCjMI75M1A2tKUQC"
        (some "token") 80).result
      = .error "Could not play track. Please open Spotify on a device and try again." :=
  (playTrack_no_preview_ios_terminal initialPlayerState envNoPreviewIOS
    "4uLU6hMCjMI75M1A2tKUQC" "token" "No active Spotify device found"
    sampleTrackNoPreview 80 rfl rfl rfl rfl).1

/-- C1: whenever `playTrack` reaches the preview strategy (the SDK strategy
does not return), the track has a preview URL, `element.play()` resolves,
and the 300 ms start-detection window elapses with the element still
paused, the call resolves successfully with
`{type: preview, track, autoplayBlocked: true}` — it does not throw. -/
theorem playTrack_autoplay_blocked_resolves (st : PlayerState) (env : PlayTrackEnv)
    (trackId tok url : String) (track : SpotifyTrack) (volume : ℚ)
    (hfetch : env.trackResult = .ok track)
    (hurl : track.preview_url = some url)
    (hsdk : sdkStrategySucceeds st env = false)
    (hplay : env.preview.playResult = none)
    (hsig : env.preview.startSignal = .timeout true) :
    (playTrack st env trackId (some tok) volume).result
        = .ok { type := .preview, track := track, autoplayBlocked := some true } := by
  have hflag : (sdkStrategyStep st env ("spotify:track:" ++ trackId)).2.2 = false :=
    (sdkStrategyStep_flag st env ("spotify:track:" ++ trackId)).trans hsdk
  have herr : (playPreview (sdkStrategyStep st env ("spotify:track:" ++ trackId)).1
      env.preview url volume).error = some .autoplayBlocked := by
    simp [playPreview, hplay, hsig, waitForPlaybackStart,
      classifyCaught_autoplayBlockedError]
  simp [playTrack, hfetch, hflag, hurl, herr]

/-- C1 witness: concrete iOS run where `play()` resolves but the element is
still paused when the 300 ms window elapses. -/
theorem playTrack_autoplay_blocked_resolves_witness :
    (playTrack initialPlayerState envPreviewTimeout "4uLU6hMCjMI75M1A2tKUQC"
        (some "token") 80).result
      = .ok { type := .preview, track := sampleTrack, autoplayBlocked := some true } :=
  playTrack_autoplay_blocked_resolves initialPlayerState envPreviewTimeout
    "4uLU6hMCjMI75M1A2tKUQC" "token" "https://p.scdn.co/mp3-preview/a"
    sampleTrack 80 rfl rfl rfl rfl rfl

/-- C5: on a gesture-restrictive (iOS) platform `playTrack` never issues
SDK initialization nor the SDK play command, and when metadata resolves to
a track with a preview URL the effect immediately following the metadata
fetch is the preview attempt — the orchestrator proceeds directly to the
preview strategy. -/
theorem playTrack_ios_skips_sdk (st : PlayerState) (env : PlayTrackEnv)
    (trackId : String) (tok : Option String) (volume : ℚ)
    (hios : env.isIOS = true) :
    Effect.sdkInitialize ∉ (playTrack st env trackId tok volume).effects
      ∧ (∀ u, Effect.sdkPlay u ∉ (playTrack st env trackId tok volume).effects)
      ∧ (∀ (track' : SpotifyTrack) (url t : String), tok = some t →
          env.trackResult = .ok track' → track'.preview_url = some url →
          (playTrack st env trackId tok volume).effects.take 2
            = [Effect.fetchTrackMeta trackId, Effect.previewPlay url]) := by
  have hstep : sdkStrategyStep st env ("spotify:track:" ++ trackId) = (st, [], false) := by
    simp [sdkStrategyStep, hios]
  cases tok with
  | none => simp [playTrack]
  | some t =>
    cases htr : env.trackResult with
    | error e =>
      refine ⟨by simp [playTrack, htr], fun u => by simp [playTrack, htr], ?_⟩
      intro track' url t' _ hok _
      exact absurd hok (by simp)
    | ok track =>
      cases hu : track.preview_url with
      | none =>
        have heff : (playTrack st env trackId (some t) volume).effects
            = [.fetchTrackMeta trackId, .connectDispatch ("spotify:track:" ++ trackId)] := by
          cases hc : env.connect <;>
            simp [playTrack, htr, hstep, hu, connectFinish, hc]
        refine ⟨by simp [heff], fun u => by simp [heff], ?_⟩
        intro track' url t' _ hok hurl
        injection hok with hok
        rw [← hok, hu] at hurl
        exact absurd hurl (by simp)
      | some url =>
        have hkey : ∃ rest, (playTrack st env trackId (some t) volume).effects
            = .fetchTrackMeta trackId :: .previewPlay url :: rest
            ∧ Effect.sdkInitialize ∉ rest ∧ ∀ u, Effect.sdkPlay u ∉ rest := by
          cases herr : (playPreview st env.preview url volume).error with
          | none =>
            exact ⟨[], by simp [playTrack, htr, hstep, hu, herr], by simp, by simp⟩
          | some pe =>
            cases pe with
            | autoplayBlocked =>
              exact ⟨[], by simp [playTrack, htr, hstep, hu, herr], by simp, by simp⟩
            | failed m =>
              refine ⟨[.connectDispatch ("spotify:track:" ++ trackId)], ?_, by simp, by simp⟩
              cases hc : env.connect <;>
                simp [playTrack, htr, hstep, hu, herr, connectFinish, hc]
        obtain ⟨rest, heq, hr1, hr2⟩ := hkey
        refine ⟨?_, ?_, ?_⟩
        · simp only [heq, List.mem_cons]
          push_neg
          exact ⟨by simp, by simp, hr1⟩
        · intro u
          simp only [heq, List.mem_cons]
          push_neg
          exact ⟨by simp, by simp, hr2 u⟩
        · intro track' url' t' _ hok hurl
          injection hok with hok
          rw [← hok, hu] at hurl
          injection hurl with hurl
          rw [heq, hurl]
          rfl

/-- C5 witness: a concrete iOS run fetches metadata and goes straight to
the preview attempt, with no SDK effect. -/
theorem playTrack_ios_skips_sdk_witness :
    Effect.sdkInitialize ∉
        (playTrack initialPlayerState envPreviewTimeout "4uLU6hMCjMI75M1A2tKUQC"
          (some "token") 80).effects
      ∧ (playTrack initialPlayerState envPreviewTimeout "4uLU6hMCjMI75M1A2tKUQC"
          (some "token") 80).effects.take 2
        = [Effect.fetchTrackMeta "4uLU6hMCjMI75M1A2tKUQC",
           Effect.previewPlay "https://p.scdn.co/mp3-preview/a"] :=
  ⟨(playTrack_ios_skips_sdk initialPlayerState envPreviewTimeout
      "4uLU6hMCjMI75M1A2tKUQC" (some "token") 80 rfl).1,
   (playTrack_ios_skips_sdk initialPlayerState envPreviewTimeout
      "4uLU6hMCjMI75M1A2tKUQC" (some "token") 80 rfl).2.2 sampleTrack
      "https://p.scdn.co/mp3-preview/a" "token" rfl rfl rfl⟩

/-- Monotonicity of `audioUnlocked` under every module operation. -/
theorem applyOp_unlocked_mono (op : Op) (s : PlayerState)
    (h : s.audioUnlocked = true) : (applyOp op s).audioUnlocked = true := by
  cases op with
  | opPlayPreview env url v =>
      rw [applyOp, (playPreview_state_flags s env url v).1]
      exact h
  | opPreparePreview url v =>
      cases he : s.audioElement <;>
        simp [applyOp, preparePreview, stopPreview, stopPreviewT, ensureAudioElement,
          modifyAudio, he, h]
  | opUnlockAudio playOk => simp [applyOp, unlockAudio, h]
  | opStartKeepAlive playOk =>
      cases hk : s.keepAliveActive <;> cases playOk <;> cases he : s.audioElement <;>
        simp [applyOp, startAutoplayKeepAlive, ensureAudioElement, modifyAudio, hk, he, h]
  | opStopKeepAlive =>
      cases hk : s.keepAliveActive <;>
        simp [applyOp, stopAutoplayKeepAlive, modifyAudio, hk, h]
  | opStopPreview =>
      cases he : s.audioElement <;> simp [applyOp, stopPreview, stopPreviewT, he, h]
  | opPausePreview => simpa [applyOp, pausePreview, modifyAudio] using h
  | opResumePreview playOk => simpa [applyOp, resumePreview, modifyAudio] using h
  | opSetPreviewVolume v => simpa [applyOp, setPreviewVolume, modifyAudio] using h
  | opOnPreviewProgress =>
      cases he : s.audioElement <;> simp [applyOp, onPreviewProgress, he, h]
  | opSdkInit result => cases result <;> simp [applyOp, applySdkInit, h]
  | opPlayTrack env trackId tok v =>
      rw [applyOp, (playTrack_state_flags s env trackId tok v).1]
      exact h
  | opLoadTrack tr tok v =>
      cases tok with
      | none => simpa [applyOp, loadTrack] using h
      | some t =>
        cases tr with
        | error e => simpa [applyOp, loadTrack] using h
        | ok track =>
          cases hu : track.preview_url <;> cases he : s.audioElement <;>
            simp [applyOp, loadTrack, hu, preparePreview, stopPreview, stopPreviewT,
              ensureAudioElement, modifyAudio, he, h]
  | opPause =>
      cases hp : s.spotifyPlayerExists <;>
        simp [applyOp, pauseAll, pausePreview, modifyAudio, hp, h]
  | opResume playOk =>
      cases hp : s.spotifyPlayerExists <;>
        simp [applyOp, resumeAll, resumePreview, modifyAudio, hp, h]
  | opStopPlayback =>
      cases he : s.audioElement <;>
        simp [applyOp, stopPlayback, stopPreview, stopPreviewT, he, h]
  | opDisconnectPlayer =>
      cases hp : s.spotifyPlayerExists <;> cases he : s.audioElement <;>
        simp [applyOp, disconnectPlayer, stopPreview, stopPreviewT, hp, he, h]

/-- Every module operation preserves the invariant that an active
keep-alive loop implies an unlocked audio element. -/
theorem applyOp_keepalive_invariant (op : Op) (s : PlayerState)
    (h : s.keepAliveActive = true → s.audioUnlocked = true) :
    (applyOp op s).keepAliveActive = true → (applyOp op s).audioUnlocked = true := by
  cases op with
  | opPlayPreview env url v =>
      intro hk
      rw [applyOp, (playPreview_state_flags s env url v).1]
      exact h ((playPreview_state_flags s env url v).2 (by rw [applyOp] at hk; exact hk))
  | opPreparePreview url v =>
      cases he : s.audioElement <;>
        simp [applyOp, preparePreview, stopPreview, stopPreviewT, ensureAudioElement,
          modifyAudio, he] <;> exact h
  | opUnlockAudio playOk =>
      cases hu : s.audioUnlocked with
      | true => simp [applyOp, unlockAudio, hu]
      | false =>
        cases playOk <;> cases he : s.audioElement <;>
          simp [applyOp, unlockAudio, ensureAudioElement, modifyAudio, hu, he] <;>
          (cases hkA : s.keepAliveActive with
           | true => exact absurd (h hkA) (by simp [hu])
           | false => rfl)
  | opStartKeepAlive playOk =>
      cases hk : s.keepAliveActive with
      | true =>
          simp [applyOp, startAutoplayKeepAlive, hk]
          exact h hk
      | false =>
        cases playOk <;> cases he : s.audioElement <;>
          simp [applyOp, startAutoplayKeepAlive, ensureAudioElement, modifyAudio, hk, he]
  | opStopKeepAlive =>
      cases hk : s.keepAliveActive with
      | true => simp [applyOp, stopAutoplayKeepAlive, modifyAudio, hk]
      | false => simp [applyOp, stopAutoplayKeepAlive, modifyAudio, hk]
  | opStopPreview =>
      cases he : s.audioElement <;> simp [applyOp, stopPreview, stopPreviewT, he] <;> exact h
  | opPausePreview => simp [applyOp, pausePreview, modifyAudio]; exact h
  | opResumePreview playOk => simp [applyOp, resumePreview, modifyAudio]; exact h
  | opSetPreviewVolume v => simp [applyOp, setPreviewVolume, modifyAudio]; exact h
  | opOnPreviewProgress =>
      cases he : s.audioElement <;> simp [applyOp, onPreviewProgress, he] <;> exact h
  | opSdkInit result => cases result <;> simp [applyOp, applySdkInit] <;> exact h
  | opPlayTrack env trackId tok v =>
      intro hk
      rw [applyOp, (playTrack_state_flags s env trackId tok v).1]
      exact h ((playTrack_state_flags s env trackId tok v).2 (by rw [applyOp] at hk; exact hk))
  | opLoadTrack tr tok v =>
      cases tok with
      | none => simp [applyOp, loadTrack]; exact h
      | some t =>
        cases tr with
        | error e => simp [applyOp, loadTrack]; exact h
        | ok track =>
          cases hu : track.preview_url <;> cases he : s.audioElement <;>
            simp [applyOp, loadTrack, hu, preparePreview, stopPreview, stopPreviewT,
              ensureAudioElement, modifyAudio, he] <;> exact h
  | opPause =>
      cases hp : s.spotifyPlayerExists <;>
        simp [applyOp, pauseAll, pausePreview, modifyAudio, hp] <;> exact h
  | opResume playOk =>
      cases hp : s.spotifyPlayerExists <;>
        simp [applyOp, resumeAll, resumePreview, modifyAudio, hp] <;> exact h
  | opStopPlayback =>
      cases he : s.audioElement <;>
        simp [applyOp, stopPlayback, stopPreview, stopPreviewT, he] <;> exact h
  | opDisconnectPlayer =>
      cases hp : s.spotifyPlayerExists <;> cases he : s.audioElement <;>
        simp [applyOp, disconnectPlayer, stopPreview, stopPreviewT, hp, he] <;> exact h

/-- In every reachable state, an active keep-alive loop implies the audio
element is unlocked. -/
theorem reachable_keepalive_unlocked (s : PlayerState) (hs : Reachable s) :
    s.keepAliveActive = true → s.audioUnlocked = true := by
  induction hs with
  | init => intro hk; exact absurd hk (by simp [initialPlayerState])
  | step op hr ih => exact applyOp_keepalive_invariant op _ ih

/-- C7: the `audioUnlocked` flag is monotonic — once true, no operation of
the player module resets it — and a succeeding `startAutoplayKeepAlive`
call (its silent `play()` resolving, in any reachable state) leaves both
`keepAliveActive` and `audioUnlocked` true. -/
theorem unlocked_monotone_and_keepalive_sets_both :
    (∀ (op : Op) (s : PlayerState), s.audioUnlocked = true →
        (applyOp op s).audioUnlocked = true)
      ∧ (∀ s : PlayerState, Reachable s →
          (startAutoplayKeepAlive s true).keepAliveActive = true
            ∧ (startAutoplayKeepAlive s true).audioUnlocked = true) := by
  refine ⟨applyOp_unlocked_mono, fun s hs => ?_⟩
  cases hk : s.keepAliveActive with
  | true =>
      refine ⟨by simp [startAutoplayKeepAlive, hk], ?_⟩
      simpa [startAutoplayKeepAlive, hk] using reachable_keepalive_unlocked s hs hk
  | false =>
      cases he : s.audioElement <;>
        simp [startAutoplayKeepAlive, ensureAudioElement, modifyAudio, hk, he]

/-- C7 witness: monotonicity at a concrete operation and state, and a
concrete succeeding keep-alive start from the initial state. -/
theorem unlocked_monotone_and_keepalive_sets_both_witness :
    (applyOp Op.opStopPreview
        { initialPlayerState with audioUnlocked := true }).audioUnlocked = true
      ∧ ((startAutoplayKeepAlive initialPlayerState true).keepAliveActive = true
          ∧ (startAutoplayKeepAlive initialPlayerState true).audioUnlocked = true) :=
  ⟨unlocked_monotone_and_keepalive_sets_both.1 Op.opStopPreview
      { initialPlayerState with audioUnlocked := true } rfl,
   unlocked_monotone_and_keepalive_sets_both.2 initialPlayerState Reachable.init⟩

end Altster
